import Mathlib

/-!
Verification of the Powercast closed-loop forecast-correction pipeline.

This file gives a shallow embedding in Lean 4 of the services under
`backend/app/services/` that the frozen claims talk about:

* `rule_engine.py`    — rule matching, confidence-weighted fusion, clamped application;
* `error_observer.py` — MAPE / peak-miss / ramp / interval-coverage error checks;
* `llm_reasoning.py`  — schema validation of reasoning output;
* `forecast_adjuster.py` — the serving-path orchestration.

Modelling conventions:

* Python floats are modelled as rationals (`ℚ`); the thresholds and the
  arithmetic of the claims are exact at this granularity.
* Database / network effects (Supabase reads and writes, the weather
  provider, the embedding backend) are modelled as explicit function or
  `Except`-valued parameters; a `try/except` boundary in the source becomes
  a `match` that maps the error case to the source's fallback value.
* Python truthiness tests on optional values (`if not x`, `x or y`,
  `x and p(x)`) are embedded by the `py*` helpers below, which treat
  `none`, the empty string, the empty list and `0` as falsy, exactly as
  CPython does.
* Audit persistence (`_store_application`, `_store_error`,
  `_trigger_analysis`) only logs or writes to the database and never
  changes a computed result; it is omitted from the pure embedding.
-/

namespace Powercast

/-- Python truthiness of an optional string: `None` and `""` are falsy. -/
def pyTruthyStr : Option String → Bool
  | none => false
  | some s => !(s = "")

/-- Python `a or b` where `a` is an optional string and `b` a string default. -/
def pyOrStr (a : Option String) (b : String) : String :=
  match a with
  | none => b
  | some s => if s = "" then b else s

/-- Python truthiness of an optional float: `None` and `0.0` are falsy. -/
def pyTruthyQ : Option ℚ → Bool
  | none => false
  | some q => !(q = 0)

/-- Python `a or b` where `a` is an optional float and `b` a float default. -/
def pyOrQ (a : Option ℚ) (b : ℚ) : ℚ :=
  match a with
  | none => b
  | some q => if q = 0 then b else q

/-- A single ASCII apostrophe, used when embedding source string literals. -/
def squote : String := String.singleton (Char.ofNat 39)

/-- CPython lexicographic `<` on strings, character lists compared by code point. -/
def charListLtb : List Char → List Char → Bool
  | [], [] => false
  | [], _ :: _ => true
  | _ :: _, [] => false
  | a :: as, b :: bs =>
      if a.toNat < b.toNat then true
      else if b.toNat < a.toNat then false
      else charListLtb as bs

/-- CPython `a < b` on strings. -/
def pyStrLtb (a b : String) : Bool := charListLtb a.data b.data

namespace RuleEngine

/-- `MAX_ADJUSTMENT_PCT = 15.0` (rule_engine.py, safety limit). -/
def MAX_ADJUSTMENT_PCT : ℚ := 15

/-- `MIN_RULE_CONFIDENCE = 0.5` (rule_engine.py). -/
def MIN_RULE_CONFIDENCE : ℚ := 1/2

/-- `MIN_SIMILARITY_THRESHOLD = 0.6` (rule_engine.py). -/
def MIN_SIMILARITY_THRESHOLD : ℚ := 3/5

/-- `ApplicableRule` dataclass (rule_engine.py). -/
structure ApplicableRule where
  lessonId : String
  failureCause : String
  contextSignature : List String
  generalizedRule : String
  adjustmentType : String
  direction : String
  magnitudePct : ℚ
  llmConfidence : ℚ
  contextSimilarity : ℚ

/-- `ApplicableRule.effective_weight`: confidence times similarity. -/
def ApplicableRule.effectiveWeight (r : ApplicableRule) : ℚ :=
  r.llmConfidence * r.contextSimilarity

/-- `ApplicableRule.effective_adjustment`: magnitude clamped to the safety
limit, signed by direction, weighted by `effective_weight`. -/
def ApplicableRule.effectiveAdjustment (r : ApplicableRule) : ℚ :=
  let magnitude := min r.magnitudePct MAX_ADJUSTMENT_PCT
  let magnitude := if r.direction = "down" then -magnitude else magnitude
  magnitude * r.effectiveWeight

/-- `RuleApplication` dataclass (rule_engine.py); the `current_context`
pass-through field is omitted (opaque logging payload). -/
structure RuleApplication where
  forecastEventId : String
  lessonId : String
  predictionIndex : ℕ
  originalPrediction : ℚ
  adjustedPrediction : ℚ
  adjustmentFactor : ℚ
  matchConfidence : ℚ
  explanation : String

/-- `AdjustmentResult` dataclass (rule_engine.py). -/
structure AdjustmentResult where
  adjustedPredictions : List ℚ
  originalPredictions : List ℚ
  appliedRules : List RuleApplication
  totalAdjustmentPct : ℚ
  explanation : String
  confidence : ℚ

/-- `RuleEngine._generate_explanation`; the `%+.1f` float formatting of the
source is abstracted to `toString` (the claims never inspect this text). -/
def generateExplanation (applications : List RuleApplication) (totalAdjustment : ℚ) : String :=
  if applications.isEmpty then "No adjustments applied."
  else
    let header :=
      "Applied " ++ toString applications.length ++ " rule(s), total adjustment: "
        ++ toString totalAdjustment ++ "%"
    let bullets := (applications.take 3).map (fun a => "• " ++ a.explanation)
    let trailer :=
      if 3 < applications.length then
        ["  (and " ++ toString (applications.length - 3) ++ " more...)"]
      else []
    String.intercalate "\n" (header :: bullets ++ trailer)

/-- `RuleEngine._blend_adjustments`: one audit row per rule (first prediction
as representative), weight-weighted sum of `effective_adjustment` divided by
the total weight, finally clamped to `[-15, 15]`. -/
def blendAdjustments (predictions : List ℚ) (rules : List ApplicableRule)
    (forecastEventId : String) : ℚ × List RuleApplication :=
  let applications := rules.map (fun rule =>
    let adjustment := rule.effectiveAdjustment
    let examplePred := predictions.headD 0
    let factor := 1 + adjustment / 100
    { forecastEventId := forecastEventId
      lessonId := rule.lessonId
      predictionIndex := 0
      originalPrediction := examplePred
      adjustedPrediction := examplePred * factor
      adjustmentFactor := factor
      matchConfidence := rule.effectiveWeight
      explanation :=
        "Applied " ++ squote ++ rule.generalizedRule ++ squote ++ " due to "
          ++ String.intercalate ", " rule.contextSignature : RuleApplication })
  let totalWeight := (rules.map (fun r => r.effectiveWeight)).sum
  let weightedAdjustment := (rules.map (fun r => r.effectiveAdjustment * r.effectiveWeight)).sum
  let blended := if 0 < totalWeight then weightedAdjustment / totalWeight else 0
  (max (-MAX_ADJUSTMENT_PCT) (min MAX_ADJUSTMENT_PCT blended), applications)

/-- `RuleEngine.apply_rules` (rule_engine.py).  The empty-rule branch returns
the predictions unchanged with confidence 1; otherwise the blended adjustment
is applied as a uniform multiplicative factor `1 + blended/100`. -/
def applyRules (predictions : List ℚ) (applicableRules : List ApplicableRule)
    (forecastEventId : String) : AdjustmentResult :=
  if applicableRules.isEmpty then
    { adjustedPredictions := predictions
      originalPredictions := predictions
      appliedRules := []
      totalAdjustmentPct := 0
      explanation := "No applicable rules found"
      confidence := 1 }
  else
    let blendResult := blendAdjustments predictions applicableRules forecastEventId
    let blendedAdjustment := blendResult.1
    let appliedRules := blendResult.2
    let adjustmentFactor := 1 + blendedAdjustment / 100
    let adjustedPredictions := predictions.map (fun pred => pred * adjustmentFactor)
    let avgConfidence :=
      (applicableRules.map (fun r => r.effectiveWeight)).sum / (applicableRules.length : ℚ)
    { adjustedPredictions := adjustedPredictions
      originalPredictions := predictions
      appliedRules := appliedRules
      totalAdjustmentPct := blendedAdjustment
      explanation := generateExplanation appliedRules blendedAdjustment
      confidence := avgConfidence }

/-- `SimilarContext` records as returned by the context engine
(context_engine.py) and consumed by `RuleEngine.match_rules`; optional
fields are `None`-able in the source. -/
structure SimilarContext where
  snapshotId : String
  lessonId : Option String
  failureCause : Option String
  contextSignature : Option (List String)
  generalizedRule : Option String
  similarity : ℚ
  llmConfidence : Option ℚ

/-- A `generalized_lessons` row as read by `RuleEngine._get_lesson`; only the
fields `match_rules` consults are kept, each optional because the source
reads them with `dict.get` defaults. -/
structure Lesson where
  isActive : Bool
  failureCause : Option String
  generalizedRule : Option String
  adjustmentType : Option String
  direction : Option String
  magnitudePct : Option ℚ

/-- The per-hit body of the `match_rules` loop: the skip conditions
(`continue` statements) and the materialisation of an `ApplicableRule`.
The database read `_get_lesson` is the `getLesson` parameter; a failed read
returns `none` exactly as the source's exception handler does. -/
def mkRule (getLesson : String → Option Lesson) (similar : SimilarContext) :
    Option ApplicableRule :=
  match similar.lessonId with
  | none => none
  | some lid =>
    if lid = "" then none
    else if similar.similarity < MIN_SIMILARITY_THRESHOLD then none
    else if pyTruthyQ similar.llmConfidence = true
            ∧ similar.llmConfidence.getD 0 < MIN_RULE_CONFIDENCE then none
    else
      match getLesson lid with
      | none => none
      | some lesson =>
        if lesson.isActive = false then none
        else some
          { lessonId := lid
            failureCause := pyOrStr similar.failureCause (lesson.failureCause.getD "Unknown")
            contextSignature := similar.contextSignature.getD []
            generalizedRule := pyOrStr similar.generalizedRule (lesson.generalizedRule.getD "")
            adjustmentType := lesson.adjustmentType.getD "scale"
            direction := lesson.direction.getD "up"
            magnitudePct := lesson.magnitudePct.getD 5
            llmConfidence := pyOrQ similar.llmConfidence (1/2)
            contextSimilarity := similar.similarity }

/-- `RuleEngine.match_rules`: keep the hits that survive the skip conditions,
then sort by `effective_weight`, highest first (Python `list.sort` with
`reverse=True` is a stable descending sort, as is `mergeSort` with this
comparator). -/
def matchRules (getLesson : String → Option Lesson)
    (similarContexts : List SimilarContext) : List ApplicableRule :=
  (similarContexts.filterMap (mkRule getLesson)).mergeSort
    (fun a b => decide (b.effectiveWeight ≤ a.effectiveWeight))

/-- The hit-retention condition of `match_rules`, stated declaratively: a
lesson id that is present and non-empty, similarity at least 0.6, a
confidence that is either falsy (absent or exactly 0, which the source's
`and`-guard lets through) or at least 0.5, and an active lesson row. -/
def keepHit (getLesson : String → Option Lesson) (h : SimilarContext) : Prop :=
  ∃ lid, h.lessonId = some lid ∧ lid ≠ ""
    ∧ MIN_SIMILARITY_THRESHOLD ≤ h.similarity
    ∧ (pyTruthyQ h.llmConfidence = true → MIN_RULE_CONFIDENCE ≤ h.llmConfidence.getD 0)
    ∧ ∃ lesson, getLesson lid = some lesson ∧ lesson.isActive = true

end RuleEngine

namespace ErrorObserver

/-- `ErrorType` enum (error_observer.py). -/
inductive ErrorType
  | mapeSpike
  | peakMiss
  | rampError
  | bias
  | variance
deriving DecidableEq

/-- `ErrorSeverity` enum (error_observer.py); it mixes in `str` in the
source, so Python comparisons between members compare the string values. -/
inductive ErrorSeverity
  | low
  | medium
  | high
  | critical
deriving DecidableEq

/-- The `str` value carried by each `ErrorSeverity` member. -/
def ErrorSeverity.value : ErrorSeverity → String
  | .low => "low"
  | .medium => "medium"
  | .high => "high"
  | .critical => "critical"

/-- `["low", "medium", "high", "critical"].index(severity.value)` as used by
`_check_peak_miss`. -/
def severityIndex : ErrorSeverity → ℕ
  | .low => 0
  | .medium => 1
  | .high => 2
  | .critical => 3

/-- `ErrorSeverity(["low", "medium", "high", "critical"][i])`; the source
only ever evaluates this at `i ≤ 3`, so the catch-all maps to `critical`. -/
def severityOfIndex : ℕ → ErrorSeverity
  | 0 => .low
  | 1 => .medium
  | 2 => .high
  | _ => .critical

/-- CPython `min(a, b)` on two `ErrorSeverity` members: because the enum
mixes in `str`, `<` is lexicographic on the string values, and `min` returns
the second argument only when it is strictly smaller. -/
def pyMinSeverity (a b : ErrorSeverity) : ErrorSeverity :=
  if pyStrLtb b.value a.value then b else a

/-- `ForecastError` dataclass (error_observer.py).  The `notes` field
(printf-formatted text) and the `actual_values` pass-through payload are
omitted: they are logging data never read back by the pipeline. -/
structure ForecastError where
  forecastEventId : String
  errorType : ErrorType
  severity : ErrorSeverity
  mape : Option ℚ := none
  mae : Option ℚ := none
  peakErrorMw : Option ℚ := none
  rampErrorMwPerHour : Option ℚ := none
  analysisTriggered : Bool := false

/-- `ErrorThresholds` dataclass (error_observer.py). -/
structure ErrorThresholds where
  mapeLow : ℚ := 5
  mapeMedium : ℚ := 10
  mapeHigh : ℚ := 15
  mapeCritical : ℚ := 25
  peakLow : ℚ := 100
  peakMedium : ℚ := 200
  peakHigh : ℚ := 400
  peakCritical : ℚ := 800
  rampLow : ℚ := 50
  rampMedium : ℚ := 100
  rampHigh : ℚ := 200
  rampCritical : ℚ := 400

/-- The default `ErrorThresholds()` instance. -/
def defaultThresholds : ErrorThresholds := {}

/-- `ErrorObserver._get_mape_severity`. -/
def getMapeSeverity (t : ErrorThresholds) (mape : ℚ) : ErrorSeverity :=
  if t.mapeCritical ≤ mape then .critical
  else if t.mapeHigh ≤ mape then .high
  else if t.mapeMedium ≤ mape then .medium
  else .low

/-- `ErrorObserver._get_peak_severity`. -/
def getPeakSeverity (t : ErrorThresholds) (peakErrorMw : ℚ) : ErrorSeverity :=
  if t.peakCritical ≤ peakErrorMw then .critical
  else if t.peakHigh ≤ peakErrorMw then .high
  else if t.peakMedium ≤ peakErrorMw then .medium
  else .low

/-- `ErrorObserver._get_ramp_severity`. -/
def getRampSeverity (t : ErrorThresholds) (rampError : ℚ) : ErrorSeverity :=
  if t.rampCritical ≤ rampError then .critical
  else if t.rampHigh ≤ rampError then .high
  else if t.rampMedium ≤ rampError then .medium
  else .low

/-- Accumulator loop for `np.argmax`: keeps the first index of the maximum
(`numpy` returns the first occurrence). -/
def npArgmaxAux (best : ℕ) (bestVal : ℚ) (i : ℕ) : List ℚ → ℕ
  | [] => best
  | x :: xs => if bestVal < x then npArgmaxAux i x (i + 1) xs else npArgmaxAux best bestVal (i + 1) xs

/-- `np.argmax` over a 1-d array; the source only calls it on non-empty
arrays (guarded by the `min_len == 0` early return). -/
def npArgmax : List ℚ → ℕ
  | [] => 0
  | x :: xs => npArgmaxAux 0 x 1 xs

/-- `np.diff` over a 1-d array. -/
def npDiff (l : List ℚ) : List ℚ := (l.zip l.tail).map (fun p => p.2 - p.1)

/-- The masked MAPE of `_check_mape`: mean absolute percentage error over
the positions whose actual value is non-zero, as a percentage. -/
def mapeOf (predictions actuals : List ℚ) : ℚ :=
  let masked := (actuals.zip predictions).filter (fun p => decide (p.1 ≠ 0))
  ((masked.map (fun p => |(p.1 - p.2) / p.1|)).sum / (masked.length : ℚ)) * 100

/-- `ErrorObserver._check_mape`: `None` when no actual is non-zero or when
the severity is LOW, otherwise a MAPE_SPIKE error. -/
def checkMape (fid : String) (t : ErrorThresholds) (predictions actuals : List ℚ) :
    Option ForecastError :=
  let masked := (actuals.zip predictions).filter (fun p => decide (p.1 ≠ 0))
  if masked.isEmpty then none
  else
    let mape := mapeOf predictions actuals
    let mae := ((actuals.zip predictions).map (fun p => |p.1 - p.2|)).sum
      / ((actuals.zip predictions).length : ℚ)
    let severity := getMapeSeverity t mape
    if severity = .low then none
    else some
      { forecastEventId := fid
        errorType := .mapeSpike
        severity := severity
        mape := some mape
        mae := some mae }

/-- `ErrorObserver._check_peak_miss`.  The timing escalation is embedded with
CPython semantics: the inner index expression raises the severity one level
(capped by `min(3, ...)`), and the outer `min(ErrorSeverity.CRITICAL, ...)`
compares the `str`-enum members lexicographically. -/
def checkPeakMiss (fid : String) (t : ErrorThresholds) (predictions actuals : List ℚ) :
    Option ForecastError :=
  let predPeakIdx := npArgmax predictions
  let actualPeakIdx := npArgmax actuals
  let predPeakVal := predictions.getD predPeakIdx 0
  let actualPeakVal := actuals.getD actualPeakIdx 0
  let peakErrorMw := |predPeakVal - actualPeakVal|
  let timingErrorIntervals := ((predPeakIdx : ℤ) - (actualPeakIdx : ℤ)).natAbs
  let severity := getPeakSeverity t peakErrorMw
  let severity :=
    if 8 < timingErrorIntervals then
      pyMinSeverity .critical (severityOfIndex (min 3 (severityIndex severity + 1)))
    else severity
  if severity = .low then none
  else some
    { forecastEventId := fid
      errorType := .peakMiss
      severity := severity
      peakErrorMw := some peakErrorMw }

/-- `ErrorObserver._check_ramp_error`.  `np.max` over the (non-empty, all
non-negative) ramp-error array is `foldr max 0`. -/
def checkRampError (fid : String) (t : ErrorThresholds) (predictions actuals : List ℚ) :
    Option ForecastError :=
  if predictions.length < 2 then none
  else
    let predRamps := npDiff predictions
    let actualRamps := npDiff actuals
    let rampErrors := (predRamps.zip actualRamps).map (fun p => |p.1 - p.2|)
    let maxRampError := rampErrors.foldr max 0
    let rampErrorPerHour := maxRampError * 4
    let severity := getRampSeverity t rampErrorPerHour
    if severity = .low then none
    else some
      { forecastEventId := fid
        errorType := .rampError
        severity := severity
        rampErrorMwPerHour := some rampErrorPerHour }

/-- The coverage percentage of `_check_variance`: share of actuals falling
inside `[q10, q90]`, over the positions all three arrays provide. -/
def coverageOf (q10 q90 actuals : List ℚ) : ℚ :=
  let rows := actuals.zip (q10.zip q90)
  let inCount := ((rows.filter (fun p => decide (p.2.1 ≤ p.1 ∧ p.1 ≤ p.2.2))).length : ℚ)
  (inCount / (rows.length : ℚ)) * 100

/-- `ErrorObserver._check_variance`.  The numpy comparison
`(actuals >= q10) & (actuals <= q90)` raises `ValueError` when the 1-d
shapes cannot broadcast (lengths differ and neither is 1); that exception is
the `Except.error` case.  A length-1 array broadcasts.  When the broadcast
result is empty, `np.mean` is NaN and both `< 50` and `< 65` are false, so
no error is emitted.  This is faithful for interval arrays no longer than
`actuals`, which is what `analyze_forecast` always passes after truncation. -/
def checkVariance (fid : String) (q10 q90 actuals : List ℚ) :
    Except Unit (Option ForecastError) :=
  let n := actuals.length
  if ¬(q10.length = n ∨ q10.length = 1 ∨ n = 1) then .error ()
  else if ¬(q90.length = n ∨ q90.length = 1 ∨ n = 1) then .error ()
  else
    let q10b := if q10.length = 1 then List.replicate n (q10.headD 0) else q10
    let q90b := if q90.length = 1 then List.replicate n (q90.headD 0) else q90
    let rows := actuals.zip (q10b.zip q90b)
    if rows.isEmpty then .ok none
    else
      let coverage := coverageOf q10b q90b actuals
      if coverage < 50 then
        .ok (some { forecastEventId := fid, errorType := .variance, severity := .high })
      else if coverage < 65 then
        .ok (some { forecastEventId := fid, errorType := .variance, severity := .medium })
      else .ok none

/-- The `predictions` dict consumed by `analyze_forecast`: `point` plus
optional `q10` / `q90` arrays (absent keys fall back to synthetic
intervals). -/
structure Predictions where
  timestamps : List String := []
  point : List ℚ
  q10 : Option (List ℚ) := none
  q90 : Option (List ℚ) := none

/-- The `actuals` dict consumed by `analyze_forecast`. -/
structure Actuals where
  values : List ℚ

/-- `ErrorObserver.analyze_forecast`: extract the arrays (with synthetic
`0.9 / 1.1 × point` intervals when q10/q90 are absent), align everything to
the shorter length, run the four checks in order, and collect their errors.
The surrounding `try/except` means an exception inside a check ends the
collection early but still returns the errors gathered so far; with typed
inputs only the variance check can raise (numpy shape mismatch), hence the
`match` on its `Except`.  Database persistence of the errors is effectful
logging only and is omitted. -/
def analyzeForecast (fid : String) (t : ErrorThresholds)
    (predictions : Predictions) (actuals : Actuals) : List ForecastError :=
  let predPoint := predictions.point
  let predQ10 := predictions.q10.getD (predPoint.map (fun x => x * (9/10)))
  let predQ90 := predictions.q90.getD (predPoint.map (fun x => x * (11/10)))
  let actualValues := actuals.values
  let minLen := min predPoint.length actualValues.length
  if minLen = 0 then []
  else
    let predPointT := predPoint.take minLen
    let actualValuesT := actualValues.take minLen
    let predQ10T := predQ10.take minLen
    let predQ90T := predQ90.take minLen
    let errors := (checkMape fid t predPointT actualValuesT).toList
      ++ (checkPeakMiss fid t predPointT actualValuesT).toList
      ++ (checkRampError fid t predPointT actualValuesT).toList
    match checkVariance fid predQ10T predQ90T actualValuesT with
    | .error _ => errors
    | .ok v => errors ++ v.toList

end ErrorObserver

namespace LLMReasoning

/-- `AdjustmentParams` dataclass (llm_reasoning.py). -/
structure AdjustmentParams where
  adjustmentType : String
  direction : String
  magnitudePct : ℚ

/-- `AdjustmentParams.validate`. -/
def AdjustmentParams.validate (p : AdjustmentParams) : Bool :=
  if p.adjustmentType ∉ ["ramp", "peak", "bias", "variance", "scale"] then false
  else if p.direction ∉ ["up", "down"] then false
  else if ¬(0 ≤ p.magnitudePct ∧ p.magnitudePct ≤ 15) then false
  else true

/-- `LLMAnalysisResult` dataclass (llm_reasoning.py). -/
structure LLMAnalysisResult where
  failureCause : String
  contextSignature : List String
  generalizedRule : String
  adjustmentParams : AdjustmentParams
  confidence : ℚ

/-- `LLMAnalysisResult.validate`. -/
def LLMAnalysisResult.validate (r : LLMAnalysisResult) : Bool :=
  if r.failureCause = "" ∨ r.failureCause.length < 10 then false
  else if r.contextSignature = [] then false
  else if r.generalizedRule = "" ∨ r.generalizedRule.length < 10 then false
  else if ¬(0 ≤ r.confidence ∧ r.confidence ≤ 1) then false
  else if r.adjustmentParams.validate = false then false
  else true

/-- The fixed context-tag vocabulary listed in the analysis prompt of
llm_reasoning.py ("Context signature tags should be from: ..."). -/
def contextVocabulary : List String :=
  ["heatwave", "cold_snap", "weekday", "weekend", "morning", "afternoon",
   "evening", "night", "holiday", "solar_dip", "solar_peak", "wind_high",
   "wind_low", "overcast", "clear_sky", "maintenance", "grid_stress"]

/-- Result-level validation as the claim words it: like
`LLMAnalysisResult.validate`, but additionally requiring every context tag
to come from the fixed vocabulary.  This follows the spec sentence, not the
source, and exists to be compared with the source's validator. -/
def validateResultClaimed (r : LLMAnalysisResult) : Bool :=
  r.validate && r.contextSignature.all (fun tag => tag ∈ contextVocabulary)

end LLMReasoning

namespace ForecastAdjuster

/-- One entry of the incoming forecast's `predictions` list: either a bare
number or a dict carrying optional `point` / `value` / `q10` / `q90` keys
(other keys are never read or written by the adjuster). -/
inductive PredItem
  | num (x : ℚ)
  | obj (point : Option ℚ) (value : Option ℚ) (q10 : Option ℚ) (q90 : Option ℚ)

/-- `AdjustmentMetadata` dataclass (forecast_adjuster.py), with the
dataclass defaults.  `applied_rules` keeps the `RuleApplication` records the
source summarises into dicts. -/
structure AdjustmentMetadata where
  adjusted : Bool
  originalPredictions : Option (List ℚ) := none
  totalAdjustmentPct : ℚ := 0
  appliedRulesCount : ℕ := 0
  appliedRules : Option (List RuleEngine.RuleApplication) := none
  explanation : String := ""
  adjustmentConfidence : ℚ := 1

/-- The forecast dict as the adjuster reads and writes it: the
`predictions` list plus the `adjustment_metadata` entry `_add_metadata`
attaches; all other keys pass through unchanged and are not modelled. -/
structure Forecast where
  predictions : List PredItem
  adjustmentMetadata : Option AdjustmentMetadata := none

/-- The point extraction of `adjust_forecast`:
`pred.get("point", pred.get("value", 0))` for dict entries, `float(pred)`
otherwise. -/
def extractPoint : PredItem → ℚ
  | .num x => x
  | .obj point value _ _ =>
      match point with
      | some p => p
      | none => value.getD 0

/-- `ForecastAdjuster._add_metadata`. -/
def addMetadata (forecast : Forecast) (m : AdjustmentMetadata) : Forecast :=
  { forecast with adjustmentMetadata := some m }

/-- `ForecastAdjuster._apply_adjustments`: write the adjusted points back
into the entries and rescale any present `q10` / `q90` by the same
`adjusted / original` ratio; bail out unchanged on a length mismatch. -/
def applyAdjustments (forecast : Forecast) (res : RuleEngine.AdjustmentResult) : Forecast :=
  let predictions := forecast.predictions
  if predictions.length ≠ res.adjustedPredictions.length then forecast
  else
    let rows := predictions.zip (res.adjustedPredictions.zip res.originalPredictions)
    let newPredictions := rows.map (fun row =>
      match row.1 with
      | .num _ => PredItem.num row.2.1
      | .obj _ v q10 q90 =>
          let ratio := if row.2.2 ≠ 0 then row.2.1 / row.2.2 else 1
          PredItem.obj (some row.2.1) v (q10.map (fun x => x * ratio))
            (q90.map (fun x => x * ratio)))
    { forecast with predictions := newPredictions }

/-- `ForecastAdjuster.adjust_forecast`.  The awaited external steps are
modelled by `Except`-valued outcome parameters:

* `logOutcome` is the raw forecast-logger call; `_log_forecast` catches its
  exception and substitutes the id `"log_failed"`;
* `findOutcome` is the whole of `_find_applicable_rules` (current-context
  fetch, context-engine lookup and `match_rules`); its `except` clause
  degrades any failure to the empty rule list.

`ENABLE_ADJUSTMENTS` is the `enableAdjustments` flag.  Steps (5) and (6)
(`apply_rules`, `_apply_adjustments`, `_add_metadata`) have no exception
handler in the source and are total on typed inputs. -/
def adjustForecast (enableAdjustments : Bool) (logOutcome : Except String String)
    (findOutcome : Except String (List RuleEngine.ApplicableRule))
    (forecast : Forecast) : Forecast :=
  let predictions := forecast.predictions
  if predictions.isEmpty then addMetadata forecast { adjusted := false }
  else
    let pointPredictions := predictions.map extractPoint
    if pointPredictions.isEmpty then addMetadata forecast { adjusted := false }
    else
      let forecastId := match logOutcome with
        | .ok fid => fid
        | .error _ => "log_failed"
      if enableAdjustments = false then
        addMetadata forecast
          { adjusted := false, explanation := "Adjustments disabled by feature flag" }
      else
        let applicableRules := match findOutcome with
          | .ok rules => rules
          | .error _ => []
        if applicableRules.isEmpty then
          addMetadata forecast
            { adjusted := false
              explanation := "No applicable rules found for current context" }
        else
          let adjustmentResult := RuleEngine.applyRules pointPredictions applicableRules forecastId
          let adjustedForecast := applyAdjustments forecast adjustmentResult
          addMetadata adjustedForecast
            { adjusted := true
              originalPredictions := some adjustmentResult.originalPredictions
              totalAdjustmentPct := adjustmentResult.totalAdjustmentPct
              appliedRulesCount := adjustmentResult.appliedRules.length
              appliedRules := some (adjustmentResult.appliedRules.take 5)
              explanation := adjustmentResult.explanation
              adjustmentConfidence := adjustmentResult.confidence }

end ForecastAdjuster

/-- The single upward rule of the worked examples: similarity 1, confidence
`c`, magnitude `m` percent. -/
def c6Rule (c m : ℚ) : RuleEngine.ApplicableRule :=
  { lessonId := "lesson-1"
    failureCause := "cause"
    contextSignature := ["ctx"]
    generalizedRule := "rule"
    adjustmentType := "scale"
    direction := "up"
    magnitudePct := m
    llmConfidence := c
    contextSimilarity := 1 }

/-- A similarity hit whose attached confidence is exactly 0.0, which CPython
treats as falsy in the guard `if similar.llm_confidence and ...`. -/
def zeroConfidenceHit : RuleEngine.SimilarContext :=
  { snapshotId := "snap-1"
    lessonId := some "lesson-1"
    failureCause := none
    contextSignature := none
    generalizedRule := none
    similarity := 4/5
    llmConfidence := some 0 }

/-- A one-row lesson table holding a single active lesson. -/
def singleActiveLesson : String → Option RuleEngine.Lesson := fun lid =>
  if lid = "lesson-1" then
    some { isActive := true
           failureCause := some "Evening peak underestimated"
           generalizedRule := some "Raise the evening forecast slightly"
           adjustmentType := some "scale"
           direction := some "up"
           magnitudePct := some 10 }
  else none

/-- A reasoning result that is valid in every respect except that its one
context tag is not in the prompt vocabulary. -/
def bogusTagResult : LLMReasoning.LLMAnalysisResult :=
  { failureCause := "Duck curve underestimated at noon"
    contextSignature := ["totally_made_up_tag"]
    generalizedRule := "Increase the afternoon forecast slightly"
    adjustmentParams := { adjustmentType := "scale", direction := "up", magnitudePct := 5 }
    confidence := 1 }

/-- The VARIANCE error record `_check_variance` emits (only the event id,
type and severity fields are populated by the source). -/
def ErrorObserver.varianceError (fid : String) (severity : ErrorObserver.ErrorSeverity) :
    ErrorObserver.ForecastError :=
  { forecastEventId := fid
    errorType := ErrorObserver.ErrorType.variance
    severity := severity }

/-- The alignment `analyze_forecast` performs before running its checks:
every array is cut to the shorter length `n`. -/
def ErrorObserver.truncatePredictions (p : ErrorObserver.Predictions) (n : ℕ) :
    ErrorObserver.Predictions :=
  { timestamps := p.timestamps
    point := p.point.take n
    q10 := p.q10.map (fun l => l.take n)
    q90 := p.q90.map (fun l => l.take n) }

/-- C1: for every rule list and prediction list, the fused
`total_adjustment_pct` of `RuleEngine.apply_rules` lies in `[-15, 15]`: the
no-rule branch returns 0 and the blended branch is clamped by
`max(-15, min(15, blended))`. -/
theorem C1_fused_adjustment_bounded (predictions : List ℚ)
    (rules : List RuleEngine.ApplicableRule) (fid : String) :
    -15 ≤ (RuleEngine.applyRules predictions rules fid).totalAdjustmentPct ∧
      (RuleEngine.applyRules predictions rules fid).totalAdjustmentPct ≤ 15 := by
  unfold RuleEngine.applyRules
  by_cases h : rules.isEmpty
  · simp [h]
  · simp only [h, Bool.false_eq_true, if_false, RuleEngine.blendAdjustments,
      RuleEngine.MAX_ADJUSTMENT_PCT]
    exact ⟨le_max_left _ _, max_le (by norm_num) (min_le_left _ _)⟩

/-- C7: with an empty rule list, `apply_rules` returns the predictions
unchanged, a zero total adjustment, confidence 1, the explicit no-rule
explanation, and an empty audit list. -/
theorem C7_no_rules_identity (predictions : List ℚ) (fid : String) :
    (RuleEngine.applyRules predictions [] fid).adjustedPredictions = predictions ∧
    (RuleEngine.applyRules predictions [] fid).totalAdjustmentPct = 0 ∧
    (RuleEngine.applyRules predictions [] fid).confidence = 1 ∧
    (RuleEngine.applyRules predictions [] fid).explanation = "No applicable rules found" ∧
    (RuleEngine.applyRules predictions [] fid).appliedRules = [] := by
  simp [RuleEngine.applyRules]

/-- C6: a single upward rule with similarity 1, confidence `c ∈ [0, 1]` and
magnitude `m ≥ 0` rescales every prediction by `1 + min(m, 15)·c/100`; in
particular the 10 percent rule at confidence 1 maps `[100, 100, 100]` to
`[110, 110, 110]`, the same rule at confidence 0.5 maps `[100]` to `[105]`,
and a 20 percent rule at confidence 1 yields values at most `115.01`. -/
theorem C6_single_rule_uniform_scaling :
    (∀ (c m : ℚ), 0 ≤ c → c ≤ 1 → 0 ≤ m →
      ∀ (predictions : List ℚ) (fid lid fc gr ty : String) (cs : List String),
        (RuleEngine.applyRules predictions
            [{ lessonId := lid, failureCause := fc, contextSignature := cs,
               generalizedRule := gr, adjustmentType := ty, direction := "up",
               magnitudePct := m, llmConfidence := c, contextSimilarity := 1 }]
            fid).adjustedPredictions
          = predictions.map (fun p => p * (1 + min m 15 * c / 100))) ∧
    (RuleEngine.applyRules [100, 100, 100] [c6Rule 1 10] "f1").adjustedPredictions
      = [110, 110, 110] ∧
    (RuleEngine.applyRules [100] [c6Rule (1/2) 10] "f2").adjustedPredictions = [105] ∧
    ∀ x ∈ (RuleEngine.applyRules [100] [c6Rule 1 20] "f3").adjustedPredictions,
      x ≤ 11501 / 100 := by
  have hgen : ∀ (c m : ℚ), 0 ≤ c → c ≤ 1 → 0 ≤ m →
      ∀ (predictions : List ℚ) (fid lid fc gr ty : String) (cs : List String),
        (RuleEngine.applyRules predictions
            [{ lessonId := lid, failureCause := fc, contextSignature := cs,
               generalizedRule := gr, adjustmentType := ty, direction := "up",
               magnitudePct := m, llmConfidence := c, contextSimilarity := 1 }]
            fid).adjustedPredictions
          = predictions.map (fun p => p * (1 + min m 15 * c / 100)) := by
    intro c m hc0 hc1 hm predictions fid lid fc gr ty cs
    have hb0 : 0 ≤ min m 15 * c := mul_nonneg (le_min hm (by norm_num)) hc0
    have hb15 : min m 15 * c ≤ 15 := by
      calc min m 15 * c ≤ 15 * 1 := by
            exact mul_le_mul (min_le_right m 15) hc1 hc0 (by norm_num)
        _ = 15 := mul_one 15
    have hud : (("up" : String) = "down") = False := eq_false (by decide)
    have key : (if 0 < c then min m 15 * c * c / c else 0) = min m 15 * c := by
      rcases eq_or_lt_of_le hc0 with h0 | hpos
      · rw [if_neg (by rw [← h0]; exact lt_irrefl 0), ← h0, mul_zero]
      · rw [if_pos hpos, mul_div_cancel_right₀ _ (ne_of_gt hpos)]
    have hclamp : max (-15 : ℚ) (min 15 (min m 15 * c)) = min m 15 * c := by
      rw [min_eq_right hb15, max_eq_right (le_trans (by norm_num) hb0)]
    simp only [RuleEngine.applyRules, RuleEngine.blendAdjustments,
      RuleEngine.ApplicableRule.effectiveAdjustment, RuleEngine.ApplicableRule.effectiveWeight,
      RuleEngine.MAX_ADJUSTMENT_PCT, List.isEmpty_cons, List.map_cons, List.map_nil,
      List.sum_cons, List.sum_nil, add_zero, mul_one, hud, if_false, Bool.false_eq_true,
      key, hclamp]
  refine ⟨hgen, ?_, ?_, ?_⟩
  · have h := hgen 1 10 (by norm_num) (by norm_num) (by norm_num) [100, 100, 100] "f1"
      "lesson-1" "cause" "rule" "scale" ["ctx"]
    simp only [c6Rule]
    rw [h]
    norm_num [min_def]
  · have h := hgen (1/2) 10 (by norm_num) (by norm_num) (by norm_num) [100] "f2"
      "lesson-1" "cause" "rule" "scale" ["ctx"]
    simp only [c6Rule]
    rw [h]
    norm_num [min_def]
  · have h := hgen 1 20 (by norm_num) (by norm_num) (by norm_num) [100] "f3"
      "lesson-1" "cause" "rule" "scale" ["ctx"]
    simp only [c6Rule]
    rw [h]
    norm_num [min_def]

/-- C6 witness: the general scaling law at confidence 1 and magnitude 10 on
the concrete input `[200]`. -/
theorem C6_single_rule_uniform_scaling_witness :
    (RuleEngine.applyRules [200] [c6Rule 1 10] "w").adjustedPredictions
      = [200].map (fun p => p * (1 + min 10 15 * 1 / 100)) :=
  C6_single_rule_uniform_scaling.1 1 10 (by norm_num) (by norm_num) (by norm_num)
    [200] "w" "lesson-1" "cause" "rule" "scale" ["ctx"]

/-- C9 counterexample: a reasoning result whose single context tag is not in
the prompt vocabulary still passes `LLMAnalysisResult.validate`, so
validation does not require the tags to be drawn from the fixed
vocabulary. -/
theorem C9_vocabulary_not_enforced :
    LLMReasoning.LLMAnalysisResult.validate bogusTagResult = true ∧
    LLMReasoning.validateResultClaimed bogusTagResult = false ∧
    "totally_made_up_tag" ∉ LLMReasoning.contextVocabulary := by
  refine ⟨?_, ?_, ?_⟩ <;> decide

/-- C9 (amended): parameter validation passes iff the type is one of
ramp/peak/bias/variance/scale, the direction up or down, and the magnitude
in `[0, 15]`; result validation passes iff additionally the failure cause
and generalized rule have length at least 10, the context signature is
non-empty, and the confidence lies in `[0, 1]` — tag-vocabulary membership
is not checked.  Out-of-range values make validation fail (no clamping). -/
theorem C9_validation_characterisation :
    (∀ p : LLMReasoning.AdjustmentParams,
        p.validate = true ↔
          p.adjustmentType ∈ ["ramp", "peak", "bias", "variance", "scale"] ∧
          p.direction ∈ ["up", "down"] ∧
          0 ≤ p.magnitudePct ∧ p.magnitudePct ≤ 15) ∧
    (∀ r : LLMReasoning.LLMAnalysisResult,
        r.validate = true ↔
          10 ≤ r.failureCause.length ∧ r.contextSignature ≠ [] ∧
          10 ≤ r.generalizedRule.length ∧ 0 ≤ r.confidence ∧ r.confidence ≤ 1 ∧
          r.adjustmentParams.validate = true) := by
  constructor
  · intro p
    unfold LLMReasoning.AdjustmentParams.validate
    split_ifs with h1 h2 h3 <;> simp_all
  · intro r
    unfold LLMReasoning.LLMAnalysisResult.validate
    split_ifs with h1 h2 h3 h4 h5 <;> simp_all <;> try omega
    · rcases h1 with he | hl
      · rw [he]
        simp
      · omega
    · rcases h3 with he | hl
      · rw [he]
        simp
      · omega

/-- A hit produces a rule exactly when it survives every skip condition of
the `match_rules` loop. -/
theorem mkRule_isSome_iff (getLesson : String → Option RuleEngine.Lesson)
    (h : RuleEngine.SimilarContext) :
    (RuleEngine.mkRule getLesson h).isSome = true ↔ RuleEngine.keepHit getLesson h := by
  unfold RuleEngine.mkRule RuleEngine.keepHit
  rcases hL : h.lessonId with _ | lid
  · simp
  · simp only [hL, Option.some.injEq, exists_eq_left']
    split_ifs with h1 h2 h3
    · simp [h1]
    · simp only [Option.isSome_none, Bool.false_eq_true, false_iff]
      intro hc
      exact absurd hc.2.1 (not_le.mpr h2)
    · simp only [Option.isSome_none, Bool.false_eq_true, false_iff]
      intro hc
      exact absurd (hc.2.2.1 h3.1) (not_le.mpr h3.2)
    · rcases hget : getLesson lid with _ | lesson
      · simp
      · rcases hact : lesson.isActive with _ | _
        · simp [hget, hact]
        · simp only [hget, hact, Bool.true_eq_false, if_false, Option.isSome_some, true_iff]
          push_neg at h2 h3
          refine ⟨h1, h2, fun ht => h3 ht, lesson, rfl, hact⟩

/-- A surviving rule copies the hit's similarity and carries the hit's
confidence passed through Python `or` (absent or zero becomes 0.5), so its
effective weight is that defaulted confidence times the similarity. -/
theorem mkRule_fields (getLesson : String → Option RuleEngine.Lesson)
    (h : RuleEngine.SimilarContext) (r : RuleEngine.ApplicableRule)
    (hr : RuleEngine.mkRule getLesson h = some r) :
    r.llmConfidence = pyOrQ h.llmConfidence (1/2) ∧
    r.contextSimilarity = h.similarity ∧
    r.effectiveWeight = pyOrQ h.llmConfidence (1/2) * h.similarity := by
  unfold RuleEngine.mkRule at hr
  rcases hL : h.lessonId with _ | lid <;> rw [hL] at hr <;> dsimp only at hr
  · exact Option.noConfusion hr
  · split_ifs at hr <;> try exact Option.noConfusion hr
    rcases hget : getLesson lid with _ | lesson <;> rw [hget] at hr <;> dsimp only at hr
    · exact Option.noConfusion hr
    · split_ifs at hr <;> try exact Option.noConfusion hr
      cases hr
      exact ⟨rfl, rfl, rfl⟩

/-- C4 counterexample: a hit with an attached active lesson, similarity 0.8
and confidence exactly 0.0 is below the 0.5 confidence floor, yet
`match_rules` keeps it (the Python guard `if similar.llm_confidence and ...`
short-circuits on the falsy 0.0). -/
theorem C4_zero_confidence_hit_kept :
    (RuleEngine.matchRules singleActiveLesson [zeroConfidenceHit]).length = 1 ∧
    zeroConfidenceHit.llmConfidence = some 0 ∧
    (0 : ℚ) < RuleEngine.MIN_RULE_CONFIDENCE := by
  refine ⟨?_, rfl, by norm_num [RuleEngine.MIN_RULE_CONFIDENCE]⟩
  have hk : RuleEngine.keepHit singleActiveLesson zeroConfidenceHit := by
    refine ⟨"lesson-1", rfl, by decide,
      by norm_num [RuleEngine.MIN_SIMILARITY_THRESHOLD, zeroConfidenceHit], ?_, ?_⟩
    · intro ht
      exact absurd ht (by norm_num [pyTruthyQ, zeroConfidenceHit])
    · have hgl : singleActiveLesson "lesson-1" = some
          { isActive := true
            failureCause := some "Evening peak underestimated"
            generalizedRule := some "Raise the evening forecast slightly"
            adjustmentType := some "scale"
            direction := some "up"
            magnitudePct := some 10 } := by simp [singleActiveLesson]
      exact ⟨_, hgl, rfl⟩
  have hs := (mkRule_isSome_iff singleActiveLesson zeroConfidenceHit).mpr hk
  rcases hmk : RuleEngine.mkRule singleActiveLesson zeroConfidenceHit with _ | r
  · rw [hmk] at hs
    exact absurd hs (by simp)
  · unfold RuleEngine.matchRules
    rw [(List.mergeSort_perm _ _).length_eq]
    simp [List.filterMap_cons, hmk]

/-- C4 (amended): `match_rules` keeps exactly the hits with a present,
non-empty lesson id, similarity at least 0.6, a confidence that is either
falsy (absent or 0, then defaulted to 0.5) or at least 0.5, and an active
lesson; each surviving rule carries `effective_weight` equal to the
defaulted confidence times the similarity and `effective_adjustment` equal
to the signed `min(magnitude, 15)` times that weight; the result is sorted
descending by effective weight. -/
theorem C4_match_rules_characterised (getLesson : String → Option RuleEngine.Lesson)
    (hits : List RuleEngine.SimilarContext) :
    (RuleEngine.matchRules getLesson hits).Pairwise
      (fun a b => b.effectiveWeight ≤ a.effectiveWeight) ∧
    (∀ r, r ∈ RuleEngine.matchRules getLesson hits ↔
        ∃ h ∈ hits, RuleEngine.mkRule getLesson h = some r) ∧
    (∀ h, (RuleEngine.mkRule getLesson h).isSome = true ↔ RuleEngine.keepHit getLesson h) ∧
    (∀ h r, RuleEngine.mkRule getLesson h = some r →
        r.llmConfidence = pyOrQ h.llmConfidence (1/2) ∧
        r.contextSimilarity = h.similarity ∧
        r.effectiveWeight = pyOrQ h.llmConfidence (1/2) * h.similarity) ∧
    (∀ r : RuleEngine.ApplicableRule,
        r.effectiveAdjustment
          = (if r.direction = "down" then -(min r.magnitudePct 15) else min r.magnitudePct 15)
            * r.effectiveWeight) := by
  refine ⟨?_, ?_, mkRule_isSome_iff getLesson, mkRule_fields getLesson, fun r => rfl⟩
  · have htrans : ∀ a b c : RuleEngine.ApplicableRule,
        decide (b.effectiveWeight ≤ a.effectiveWeight) = true →
        decide (c.effectiveWeight ≤ b.effectiveWeight) = true →
        decide (c.effectiveWeight ≤ a.effectiveWeight) = true := by
      intro a b c hab hbc
      rw [decide_eq_true_eq] at *
      exact le_trans hbc hab
    have htotal : ∀ a b : RuleEngine.ApplicableRule,
        (decide (b.effectiveWeight ≤ a.effectiveWeight)
          || decide (a.effectiveWeight ≤ b.effectiveWeight)) = true := by
      intro a b
      rcases le_total b.effectiveWeight a.effectiveWeight with h | h
      · simp [h]
      · simp [h]
    have hs := @List.sorted_mergeSort _
      (fun a b => decide (b.effectiveWeight ≤ a.effectiveWeight)) htrans htotal
      (hits.filterMap (RuleEngine.mkRule getLesson))
    exact hs.imp (fun hab => of_decide_eq_true hab)
  · intro r
    unfold RuleEngine.matchRules
    rw [List.mem_mergeSort, List.mem_filterMap]

/-- C4 witness: sortedness of the matched-rule list on the concrete
one-hit table. -/
theorem C4_match_rules_characterised_witness :
    (RuleEngine.matchRules singleActiveLesson [zeroConfidenceHit]).Pairwise
      (fun a b => b.effectiveWeight ≤ a.effectiveWeight) :=
  (C4_match_rules_characterised singleActiveLesson [zeroConfidenceHit]).1

/-- C3 (code bug): a peak miss whose magnitude error is 150 MW (LOW band)
and whose argmax offset is 9 intervals is emitted as CRITICAL, not MEDIUM:
the outer `min(ErrorSeverity.CRITICAL, ...)` compares the `str`-enum values
lexicographically and "critical" is the smallest, so any offset above 8
forces CRITICAL even though the inner index arithmetic (third conjunct)
computes the intended one-level escalation to MEDIUM. -/
theorem C3_peak_timing_escalation_overshoots :
    (ErrorObserver.checkPeakMiss "fid" ErrorObserver.defaultThresholds
        [100, 0, 0, 0, 0, 0, 0, 0, 0, 0] [0, 0, 0, 0, 0, 0, 0, 0, 0, 250]).map
      (fun e => e.severity) = some ErrorObserver.ErrorSeverity.critical ∧
    ErrorObserver.getPeakSeverity ErrorObserver.defaultThresholds 150
      = ErrorObserver.ErrorSeverity.low ∧
    ErrorObserver.severityOfIndex
        (min 3 (ErrorObserver.severityIndex ErrorObserver.ErrorSeverity.low + 1))
      = ErrorObserver.ErrorSeverity.medium := by
  have hlow : ErrorObserver.getPeakSeverity ErrorObserver.defaultThresholds 150
      = ErrorObserver.ErrorSeverity.low := by
    norm_num [ErrorObserver.getPeakSeverity, ErrorObserver.defaultThresholds]
  refine ⟨?_, hlow, by decide⟩
  have h1 : ErrorObserver.npArgmax [100, 0, 0, 0, 0, 0, 0, 0, 0, 0] = 0 := by
    norm_num [ErrorObserver.npArgmax, ErrorObserver.npArgmaxAux]
  have h2 : ErrorObserver.npArgmax [0, 0, 0, 0, 0, 0, 0, 0, 0, 250] = 9 := by
    norm_num [ErrorObserver.npArgmax, ErrorObserver.npArgmaxAux]
  have habs : |([100, 0, 0, 0, 0, 0, 0, 0, 0, (0:ℚ)].getD 0 0)
      - ([0, 0, 0, 0, 0, 0, 0, 0, 0, (250:ℚ)].getD 9 0)| = 150 := by
    norm_num [List.getD]
  have hesc : ErrorObserver.pyMinSeverity ErrorObserver.ErrorSeverity.critical
      (ErrorObserver.severityOfIndex
        (min 3 (ErrorObserver.severityIndex ErrorObserver.ErrorSeverity.low + 1)))
      = ErrorObserver.ErrorSeverity.critical := by decide
  have hnat : (((0:ℕ) : ℤ) - ((9:ℕ) : ℤ)).natAbs = 9 := by decide
  unfold ErrorObserver.checkPeakMiss
  rw [h1, h2]
  norm_num [List.getD, ErrorObserver.getPeakSeverity, ErrorObserver.defaultThresholds,
    hesc, hnat]
  exact ⟨_, ⟨by decide, rfl⟩, rfl⟩

/-- C5 counterexample: a 7 percent MAPE is classified LOW by the code (so no
error is emitted) although 7 is outside the claimed `low < 5%` band — the
`mape_low = 5` threshold is never consulted by `_get_mape_severity`, whose
LOW band is everything below the 10 percent medium threshold. -/
theorem C5_seven_percent_mape_is_low :
    ErrorObserver.checkMape "f" ErrorObserver.defaultThresholds [93] [100] = none ∧
    ErrorObserver.mapeOf [93] [100] = 7 ∧
    ErrorObserver.getMapeSeverity ErrorObserver.defaultThresholds 7
      = ErrorObserver.ErrorSeverity.low ∧
    ¬((7 : ℚ) < 5) := by
  have hm : ErrorObserver.mapeOf [93] [100] = 7 := by
    norm_num [ErrorObserver.mapeOf, abs_div]
  refine ⟨?_, hm, ?_, by norm_num⟩
  · unfold ErrorObserver.checkMape
    dsimp only
    rw [hm]
    norm_num [ErrorObserver.getMapeSeverity, ErrorObserver.defaultThresholds]
  · norm_num [ErrorObserver.getMapeSeverity, ErrorObserver.defaultThresholds]

/-- C5 (amended): with the default thresholds the severity bands are
LOW iff mape < 10, MEDIUM on [10, 15), HIGH on [15, 25), CRITICAL iff
mape ≥ 25 (the 5 percent low threshold is unused); a LOW severity emits no
error; the MAPE ignores positions whose actual is zero (appending such a
position changes nothing); and the anchor points hold: 4.5 percent emits no
error, 12 is MEDIUM, 18 is HIGH, 30 is CRITICAL. -/
theorem C5_mape_bands_characterised :
    (∀ m : ℚ,
      (ErrorObserver.getMapeSeverity ErrorObserver.defaultThresholds m
          = ErrorObserver.ErrorSeverity.low ↔ m < 10) ∧
      (ErrorObserver.getMapeSeverity ErrorObserver.defaultThresholds m
          = ErrorObserver.ErrorSeverity.medium ↔ 10 ≤ m ∧ m < 15) ∧
      (ErrorObserver.getMapeSeverity ErrorObserver.defaultThresholds m
          = ErrorObserver.ErrorSeverity.high ↔ 15 ≤ m ∧ m < 25) ∧
      (ErrorObserver.getMapeSeverity ErrorObserver.defaultThresholds m
          = ErrorObserver.ErrorSeverity.critical ↔ 25 ≤ m)) ∧
    (∀ (fid : String) (t : ErrorObserver.ErrorThresholds) (preds acts : List ℚ),
      ErrorObserver.getMapeSeverity t (ErrorObserver.mapeOf preds acts)
          = ErrorObserver.ErrorSeverity.low →
        ErrorObserver.checkMape fid t preds acts = none) ∧
    (∀ (preds acts : List ℚ) (x : ℚ), preds.length = acts.length →
      ErrorObserver.mapeOf (preds ++ [x]) (acts ++ [0]) = ErrorObserver.mapeOf preds acts) ∧
    ErrorObserver.checkMape "f" ErrorObserver.defaultThresholds [191] [200] = none ∧
    ErrorObserver.getMapeSeverity ErrorObserver.defaultThresholds 12
      = ErrorObserver.ErrorSeverity.medium ∧
    ErrorObserver.getMapeSeverity ErrorObserver.defaultThresholds 18
      = ErrorObserver.ErrorSeverity.high ∧
    ErrorObserver.getMapeSeverity ErrorObserver.defaultThresholds 30
      = ErrorObserver.ErrorSeverity.critical := by
  have hlownone : ∀ (fid : String) (t : ErrorObserver.ErrorThresholds) (preds acts : List ℚ),
      ErrorObserver.getMapeSeverity t (ErrorObserver.mapeOf preds acts)
          = ErrorObserver.ErrorSeverity.low →
        ErrorObserver.checkMape fid t preds acts = none := by
    intro fid t preds acts hl
    unfold ErrorObserver.checkMape
    dsimp only
    rw [hl]
    split_ifs with ha hb
    · rfl
    · rfl
    · exact absurd rfl hb
  refine ⟨?_, hlownone, ?_, ?_, ?_, ?_, ?_⟩
  · intro m
    unfold ErrorObserver.getMapeSeverity
    simp only [ErrorObserver.defaultThresholds]
    split_ifs with h1 h2 h3
    · exact ⟨iff_of_false (by decide) (not_lt.mpr (le_trans (by norm_num) h1)),
        iff_of_false (by decide)
          (fun h => absurd h.2 (not_lt.mpr (le_trans (by norm_num) h1))),
        iff_of_false (by decide) (fun h => absurd h.2 (not_lt.mpr h1)),
        iff_of_true rfl h1⟩
    · exact ⟨iff_of_false (by decide) (not_lt.mpr (le_trans (by norm_num) h2)),
        iff_of_false (by decide) (fun h => absurd h.2 (not_lt.mpr h2)),
        iff_of_true rfl ⟨h2, not_le.mp h1⟩,
        iff_of_false (by decide) h1⟩
    · exact ⟨iff_of_false (by decide) (not_lt.mpr h3),
        iff_of_true rfl ⟨h3, not_le.mp h2⟩,
        iff_of_false (by decide) (fun h => absurd h.1 h2),
        iff_of_false (by decide) h1⟩
    · exact ⟨iff_of_true rfl (not_le.mp h3),
        iff_of_false (by decide) (fun h => absurd h.1 h3),
        iff_of_false (by decide) (fun h => absurd h.1 h2),
        iff_of_false (by decide) h1⟩
  · intro preds acts x hlen
    unfold ErrorObserver.mapeOf
    rw [List.zip_append hlen.symm, List.filter_append]
    simp
  · apply hlownone
    have hm : ErrorObserver.mapeOf [191] [200] = 9/2 := by
      norm_num [ErrorObserver.mapeOf, abs_div]
    rw [hm]
    norm_num [ErrorObserver.getMapeSeverity, ErrorObserver.defaultThresholds]
  · norm_num [ErrorObserver.getMapeSeverity, ErrorObserver.defaultThresholds]
  · norm_num [ErrorObserver.getMapeSeverity, ErrorObserver.defaultThresholds]
  · norm_num [ErrorObserver.getMapeSeverity, ErrorObserver.defaultThresholds]

/-- C5 witness: the LOW-implies-no-error implication at a concrete input
with a 1 percent MAPE. -/
theorem C5_mape_bands_characterised_witness :
    ErrorObserver.checkMape "w" ErrorObserver.defaultThresholds [101] [100] = none := by
  apply C5_mape_bands_characterised.2.1
  have hm : ErrorObserver.mapeOf [101] [100] = 1 := by
    norm_num [ErrorObserver.mapeOf, abs_div]
  rw [hm]
  norm_num [ErrorObserver.getMapeSeverity, ErrorObserver.defaultThresholds]

/-- A length-one list is the one-element replicate of its head. -/
theorem replicate_headD_of_length_one (l : List ℚ) (h : l.length = 1) :
    List.replicate 1 (l.headD 0) = l := by
  rcases l with _ | ⟨x, xs⟩
  · simp at h
  · rcases xs with _ | ⟨y, ys⟩
    · rfl
    · simp at h

/-- When the interval arrays already have the length of the actuals (the
shape `analyze_forecast` produces for synthetic intervals), the variance
check reduces to the coverage bands: HIGH below 50, MEDIUM below 65,
nothing otherwise. -/
theorem checkVariance_spec (fid : String) (q10 q90 av : List ℚ)
    (h10 : q10.length = av.length) (h90 : q90.length = av.length)
    (h0 : av.length ≠ 0) :
    ErrorObserver.checkVariance fid q10 q90 av
      = (if ErrorObserver.coverageOf q10 q90 av < 50 then
          Except.ok (some (ErrorObserver.varianceError fid ErrorObserver.ErrorSeverity.high))
        else if ErrorObserver.coverageOf q10 q90 av < 65 then
          Except.ok (some (ErrorObserver.varianceError fid ErrorObserver.ErrorSeverity.medium))
        else Except.ok none) := by
  unfold ErrorObserver.checkVariance
  have hq10b : (if q10.length = 1 then List.replicate av.length (q10.headD 0) else q10)
      = q10 := by
    by_cases hl : q10.length = 1
    · have hav : av.length = 1 := by rw [← h10, hl]
      rw [if_pos hl, hav]
      exact replicate_headD_of_length_one q10 hl
    · rw [if_neg hl]
  have hq90b : (if q90.length = 1 then List.replicate av.length (q90.headD 0) else q90)
      = q90 := by
    by_cases hl : q90.length = 1
    · have hav : av.length = 1 := by rw [← h90, hl]
      rw [if_pos hl, hav]
      exact replicate_headD_of_length_one q90 hl
    · rw [if_neg hl]
  rw [if_neg (fun hc => hc (Or.inl h10)), if_neg (fun hc => hc (Or.inl h90))]
  rw [hq10b, hq90b]
  dsimp only
  have hrows : (av.zip (q10.zip q90)).isEmpty = false := by
    rcases av with _ | ⟨a, as⟩
    · exact absurd rfl h0
    · rcases q10 with _ | ⟨b, bs⟩
      · exact absurd h10.symm (by simp)
      · rcases q90 with _ | ⟨c, cs⟩
        · exact absurd h90.symm (by simp)
        · rfl
  rw [hrows]
  simp only [Bool.false_eq_true, if_false]
  rfl

/-- C10: when the caller supplies no q10/q90 arrays, `analyze_forecast`
evaluates the coverage check against the synthetic intervals
`0.9 × point` and `1.1 × point`, and emits a HIGH variance error when that
synthetic coverage is below 50 percent (MEDIUM below 65), even though no
prediction intervals were provided. -/
theorem C10_synthetic_intervals_enable_variance_errors
    (fid : String) (t : ErrorObserver.ErrorThresholds)
    (preds : ErrorObserver.Predictions) (acts : ErrorObserver.Actuals)
    (hq10 : preds.q10 = none) (hq90 : preds.q90 = none)
    (hn : min preds.point.length acts.values.length ≠ 0) :
    (ErrorObserver.coverageOf
        ((preds.point.map (fun x => x * (9/10))).take
          (min preds.point.length acts.values.length))
        ((preds.point.map (fun x => x * (11/10))).take
          (min preds.point.length acts.values.length))
        (acts.values.take (min preds.point.length acts.values.length)) < 50 →
      ∃ e ∈ ErrorObserver.analyzeForecast fid t preds acts,
        e.errorType = ErrorObserver.ErrorType.variance ∧
        e.severity = ErrorObserver.ErrorSeverity.high) ∧
    (¬(ErrorObserver.coverageOf
        ((preds.point.map (fun x => x * (9/10))).take
          (min preds.point.length acts.values.length))
        ((preds.point.map (fun x => x * (11/10))).take
          (min preds.point.length acts.values.length))
        (acts.values.take (min preds.point.length acts.values.length)) < 50) →
      ErrorObserver.coverageOf
        ((preds.point.map (fun x => x * (9/10))).take
          (min preds.point.length acts.values.length))
        ((preds.point.map (fun x => x * (11/10))).take
          (min preds.point.length acts.values.length))
        (acts.values.take (min preds.point.length acts.values.length)) < 65 →
      ∃ e ∈ ErrorObserver.analyzeForecast fid t preds acts,
        e.errorType = ErrorObserver.ErrorType.variance ∧
        e.severity = ErrorObserver.ErrorSeverity.medium) := by
  have hmin_le_pt : min preds.point.length acts.values.length ≤ preds.point.length :=
    min_le_left _ _
  have hmin_le_av : min preds.point.length acts.values.length ≤ acts.values.length :=
    min_le_right _ _
  have h10len : ((preds.point.map (fun x => x * (9/10))).take
      (min preds.point.length acts.values.length)).length
      = (acts.values.take (min preds.point.length acts.values.length)).length := by
    simp only [List.length_take, List.length_map]
    omega
  have h90len : ((preds.point.map (fun x => x * (11/10))).take
      (min preds.point.length acts.values.length)).length
      = (acts.values.take (min preds.point.length acts.values.length)).length := by
    simp only [List.length_take, List.length_map]
    omega
  have h0 : (acts.values.take (min preds.point.length acts.values.length)).length ≠ 0 := by
    simp only [List.length_take]
    omega
  have hunfold : ErrorObserver.analyzeForecast fid t preds acts
      = (ErrorObserver.checkMape fid t
          (preds.point.take (min preds.point.length acts.values.length))
          (acts.values.take (min preds.point.length acts.values.length))).toList
        ++ (ErrorObserver.checkPeakMiss fid t
          (preds.point.take (min preds.point.length acts.values.length))
          (acts.values.take (min preds.point.length acts.values.length))).toList
        ++ (ErrorObserver.checkRampError fid t
          (preds.point.take (min preds.point.length acts.values.length))
          (acts.values.take (min preds.point.length acts.values.length))).toList
        ++ (match ErrorObserver.checkVariance fid
              ((preds.point.map (fun x => x * (9/10))).take
                (min preds.point.length acts.values.length))
              ((preds.point.map (fun x => x * (11/10))).take
                (min preds.point.length acts.values.length))
              (acts.values.take (min preds.point.length acts.values.length)) with
            | .error _ => []
            | .ok v => v.toList) := by
    unfold ErrorObserver.analyzeForecast
    rw [hq10, hq90]
    dsimp only [Option.getD]
    rw [if_neg hn]
    rcases hvar : ErrorObserver.checkVariance fid
        ((preds.point.map (fun x => x * (9/10))).take
          (min preds.point.length acts.values.length))
        ((preds.point.map (fun x => x * (11/10))).take
          (min preds.point.length acts.values.length))
        (acts.values.take (min preds.point.length acts.values.length)) with e | v
    · simp [hvar]
    · simp [hvar]
  constructor
  · intro hcov
    have hvar : ErrorObserver.checkVariance fid
        ((preds.point.map (fun x => x * (9/10))).take
          (min preds.point.length acts.values.length))
        ((preds.point.map (fun x => x * (11/10))).take
          (min preds.point.length acts.values.length))
        (acts.values.take (min preds.point.length acts.values.length))
        = Except.ok (some (ErrorObserver.varianceError fid ErrorObserver.ErrorSeverity.high)) := by
      rw [checkVariance_spec _ _ _ _ h10len h90len h0, if_pos hcov]
    rw [hunfold, hvar]
    refine ⟨ErrorObserver.varianceError fid ErrorObserver.ErrorSeverity.high, ?_, rfl, rfl⟩
    simp
  · intro hcov1 hcov2
    have hvar : ErrorObserver.checkVariance fid
        ((preds.point.map (fun x => x * (9/10))).take
          (min preds.point.length acts.values.length))
        ((preds.point.map (fun x => x * (11/10))).take
          (min preds.point.length acts.values.length))
        (acts.values.take (min preds.point.length acts.values.length))
        = Except.ok (some (ErrorObserver.varianceError fid ErrorObserver.ErrorSeverity.medium)) := by
      rw [checkVariance_spec _ _ _ _ h10len h90len h0, if_neg hcov1, if_pos hcov2]
    rw [hunfold, hvar]
    refine ⟨ErrorObserver.varianceError fid ErrorObserver.ErrorSeverity.medium, ?_, rfl, rfl⟩
    simp

/-- C10 witness: two point predictions of 100 with no intervals against
actuals of 200 — the synthetic 90/110 band covers nothing, so a HIGH
variance error is emitted. -/
theorem C10_synthetic_intervals_enable_variance_errors_witness :
    ∃ e ∈ ErrorObserver.analyzeForecast "w" ErrorObserver.defaultThresholds
        { timestamps := [], point := [100, 100], q10 := none, q90 := none }
        { values := [200, 200] },
      e.errorType = ErrorObserver.ErrorType.variance ∧
      e.severity = ErrorObserver.ErrorSeverity.high := by
  apply (C10_synthetic_intervals_enable_variance_errors "w" ErrorObserver.defaultThresholds
    { timestamps := [], point := [100, 100], q10 := none, q90 := none }
    { values := [200, 200] } rfl rfl (by simp)).1
  norm_num [ErrorObserver.coverageOf, List.filter]

/-- C8 counterexample: with point predictions `[100, 100]`, actuals
`[200, 200]` and explicitly supplied but empty q10/q90 arrays, the numpy
comparison in the variance check raises (shape (2,) against shape (0,)),
yet the call still returns the CRITICAL MAPE error collected before the
exception — one error, not none. -/
theorem C8_partial_errors_survive_exception :
    (ErrorObserver.analyzeForecast "f" ErrorObserver.defaultThresholds
        { timestamps := [], point := [100, 100], q10 := some [], q90 := some [] }
        { values := [200, 200] }).length = 1 ∧
    ErrorObserver.checkVariance "f" [] [] [200, 200] = Except.error () := by
  constructor
  · norm_num [ErrorObserver.analyzeForecast, ErrorObserver.checkMape,
      ErrorObserver.checkPeakMiss, ErrorObserver.checkRampError, ErrorObserver.checkVariance,
      ErrorObserver.mapeOf, ErrorObserver.npArgmax, ErrorObserver.npArgmaxAux,
      ErrorObserver.npDiff, ErrorObserver.getMapeSeverity, ErrorObserver.getPeakSeverity,
      ErrorObserver.getRampSeverity, ErrorObserver.defaultThresholds, abs_div,
      List.getD, List.filter]
    rfl
  · rfl

/-- C8 (amended): `analyze_forecast` is a total function of its typed
inputs; an empty point-prediction or actual array yields the empty error
list, and the result only depends on the two series (and any provided
interval arrays) up to the shorter length — truncating everything to that
length first changes nothing. -/
theorem C8_analyze_total_aligned (fid : String) (t : ErrorObserver.ErrorThresholds)
    (preds : ErrorObserver.Predictions) (acts : ErrorObserver.Actuals) :
    (preds.point = [] ∨ acts.values = [] →
      ErrorObserver.analyzeForecast fid t preds acts = []) ∧
    ErrorObserver.analyzeForecast fid t preds acts
      = ErrorObserver.analyzeForecast fid t
          (ErrorObserver.truncatePredictions preds
            (min preds.point.length acts.values.length))
          { values := acts.values.take (min preds.point.length acts.values.length) } := by
  constructor
  · intro h
    rcases h with h | h <;> simp [ErrorObserver.analyzeForecast, h]
  · by_cases hn : min preds.point.length acts.values.length = 0
    · simp [ErrorObserver.analyzeForecast, ErrorObserver.truncatePredictions, hn,
        List.length_take]
    · have h1 : min (min preds.point.length acts.values.length)
          (min preds.point.length acts.values.length) = min preds.point.length acts.values.length :=
        min_self _
      rcases hq10 : preds.q10 with _ | l10 <;> rcases hq90 : preds.q90 with _ | l90 <;>
        simp [ErrorObserver.analyzeForecast, ErrorObserver.truncatePredictions, hq10, hq90,
          List.take_take, List.map_take, List.length_take, hn, h1, min_self,
          min_assoc, min_comm, min_left_comm]

/-- C8 witness: empty point predictions give the empty error list. -/
theorem C8_analyze_total_aligned_witness :
    ErrorObserver.analyzeForecast "w" ErrorObserver.defaultThresholds
        { timestamps := [], point := [], q10 := none, q90 := none } { values := [5] } = [] :=
  (C8_analyze_total_aligned "w" ErrorObserver.defaultThresholds
    { timestamps := [], point := [], q10 := none, q90 := none } { values := [5] }).1
    (Or.inl rfl)

/-- C2 counterexample: with the context-engine step failing, the returned
forecast is annotated "No applicable rules found for current context" —
there is no "adjustment layer unavailable" annotation anywhere in the
adjuster. -/
theorem C2_no_unavailable_annotation :
    (ForecastAdjuster.adjustForecast true (Except.error "db down")
        (Except.error "context engine down")
        { predictions := [ForecastAdjuster.PredItem.num 100],
          adjustmentMetadata := none }).predictions
      = [ForecastAdjuster.PredItem.num 100] ∧
    ((ForecastAdjuster.adjustForecast true (Except.error "db down")
        (Except.error "context engine down")
        { predictions := [ForecastAdjuster.PredItem.num 100],
          adjustmentMetadata := none }).adjustmentMetadata.map (fun m => m.explanation))
      = some "No applicable rules found for current context" ∧
    ((ForecastAdjuster.adjustForecast true (Except.error "db down")
        (Except.error "context engine down")
        { predictions := [ForecastAdjuster.PredItem.num 100],
          adjustmentMetadata := none }).adjustmentMetadata.map (fun m => m.explanation))
      ≠ some "adjustment layer unavailable" := by
  refine ⟨rfl, rfl, ?_⟩
  intro h
  rw [show ((ForecastAdjuster.adjustForecast true (Except.error "db down")
      (Except.error "context engine down")
      { predictions := [ForecastAdjuster.PredItem.num 100],
        adjustmentMetadata := none }).adjustmentMetadata.map (fun m => m.explanation))
      = some "No applicable rules found for current context" from rfl] at h
  exact absurd (Option.some.inj h) (by decide)

/-- C2 (amended): the adjuster is total on typed inputs and always attaches
adjustment metadata; failures of the logging or rule-finding steps are
caught inside their helpers, and a failed rule-finding step returns the
base forecast unchanged, annotated "No applicable rules found for current
context" (when adjustments are enabled and the predictions non-empty) —
not "adjustment layer unavailable". -/
theorem C2_degraded_paths_return_base (enable : Bool) (logOutcome : Except String String)
    (findOutcome : Except String (List RuleEngine.ApplicableRule))
    (forecast : ForecastAdjuster.Forecast) :
    (ForecastAdjuster.adjustForecast enable logOutcome findOutcome
        forecast).adjustmentMetadata.isSome = true ∧
    (∀ e, findOutcome = Except.error e →
      (ForecastAdjuster.adjustForecast enable logOutcome findOutcome forecast).predictions
        = forecast.predictions) ∧
    (∀ e, findOutcome = Except.error e → forecast.predictions ≠ [] → enable = true →
      (ForecastAdjuster.adjustForecast enable logOutcome findOutcome
          forecast).adjustmentMetadata.map (fun m => m.explanation)
        = some "No applicable rules found for current context") := by
  refine ⟨?_, ?_, ?_⟩
  · unfold ForecastAdjuster.adjustForecast
    dsimp only
    rcases hp : forecast.predictions with _ | ⟨p, ps⟩ <;>
      split_ifs <;> simp [ForecastAdjuster.addMetadata]
  · intro e hfind
    subst hfind
    unfold ForecastAdjuster.adjustForecast
    dsimp only
    rcases hp : forecast.predictions with _ | ⟨p, ps⟩ <;>
      split_ifs <;> simp_all [ForecastAdjuster.addMetadata]
  · intro e hfind hne hen
    subst hfind
    subst hen
    unfold ForecastAdjuster.adjustForecast
    dsimp only
    rcases hp : forecast.predictions with _ | ⟨p, ps⟩
    · exact absurd hp hne
    · simp [ForecastAdjuster.addMetadata, hp]

/-- C2 witness: the degraded path at a concrete one-point forecast. -/
theorem C2_degraded_paths_return_base_witness :
    (ForecastAdjuster.adjustForecast true (Except.error "x") (Except.error "y")
        { predictions := [ForecastAdjuster.PredItem.num 7],
          adjustmentMetadata := none }).adjustmentMetadata.map (fun m => m.explanation)
      = some "No applicable rules found for current context" :=
  (C2_degraded_paths_return_base true (Except.error "x") (Except.error "y")
    { predictions := [ForecastAdjuster.PredItem.num 7], adjustmentMetadata := none }).2.2
    "y" rfl (List.cons_ne_nil _ _) rfl

end Powercast
